import Mathlib

/-!
A shallow embedding of `machina/algos/mpc.py` (dynamics-model training for
model-based RL) and proofs about it.

Modelling conventions:
* A tensor is a list of samples along dimension 0 (`Tensor α`); the per-sample
  payload is an abstract type `α`.  `torch.cat(_, dim=0)` is list append.
* A Python `dict` is an insertion-ordered association list (`PyDict`);
  `d[k]` lookup, `d[k] = v` assignment and `len(d)` are modelled below.
* Python exceptions are the error side of an `Except Exn` computation.
* Python floats are modelled as exact rationals; `int(x)` is truncation
  toward zero (`pyInt`) and integer `//` is floor division (`pyFloorDiv`,
  raising `ZeroDivisionError` on a zero divisor).
* The external collaborators (the loss functional `lf.dynamics`, the
  optimizer's `zero_grad`/`step`, autograd's `backward`, and the trajectory
  buffer's `random_batch`) are oracles packaged in `Externals` and `Traj`;
  the hidden model/optimizer state is an abstract type `σ` threaded through.
  `logger.log` has no observable effect on the results and is omitted.
* The relevant fragment of `torch.Tensor` (value, device, gradient tracking,
  `detach`, `cpu`, `numpy`) is modelled by `TorchTensor`/`PyVal` following
  the documented PyTorch semantics: `detach` drops gradient tracking, `cpu`
  moves to host, `numpy` yields a 0-dimensional NumPy array and raises when
  the tensor still requires grad or lives on an accelerator device.
-/

namespace Machina

/-- A tensor as a list of samples along the sample (first) dimension. -/
abbrev Tensor (α : Type) : Type := List α

/-- A Python dict: an insertion-ordered association list with string keys. -/
abbrev PyDict (β : Type) : Type := List (String × β)

/-- `d[k]` as an optional lookup (first matching key). -/
def dictGet? {β : Type} (d : PyDict β) (k : String) : Option β :=
  (d.find? (fun p => p.1 = k)).map (fun p => p.2)

/-- `d[k] = v`: update in place if the key exists, else append (Python dicts
preserve insertion order). -/
def dictSet {β : Type} (d : PyDict β) (k : String) (v : β) : PyDict β :=
  if (d.find? (fun p => p.1 = k)).isSome then
    d.map (fun p => if p.1 = k then (k, v) else p)
  else
    d ++ [(k, v)]

/-- `len(d)` for a dict: the number of keys. -/
def dictLen {β : Type} (d : PyDict β) : Nat := d.length

/-- `list(d.keys())` in insertion order. -/
def dictKeys {β : Type} (d : PyDict β) : List String := d.map (fun p => p.1)

/-- Python exceptions that can surface from this code or its collaborators. -/
inductive Exn : Type where
  | zeroDivision : Exn
  | keyError (k : String) : Exn
  | runtimeError (msg : String) : Exn
  | external (msg : String) : Exn
deriving DecidableEq

/-- Python `int(x)` on a float (modelled as a rational): truncation toward
zero. -/
def pyInt (q : ℚ) : ℤ := if 0 ≤ q then ⌊q⌋ else ⌈q⌉

/-- Python `a // b` on ints: floor division, raising `ZeroDivisionError` when
`b = 0`. -/
def pyFloorDiv (a b : ℤ) : Except Exn ℤ :=
  if b = 0 then .error .zeroDivision else .ok (Int.fdiv a b)

/-- The device a torch tensor lives on. -/
inductive Device : Type where
  | cpu : Device
  | cuda : Device
deriving DecidableEq

/-- The fragment of `torch.Tensor` this code observes: a scalar value, its
device, and whether it is tracked by autograd. -/
structure TorchTensor : Type where
  val : ℚ
  device : Device
  requiresGrad : Bool
deriving DecidableEq

/-- `t.detach()`: same value, gradient tracking dropped. -/
def TorchTensor.detach (t : TorchTensor) : TorchTensor :=
  { t with requiresGrad := false }

/-- `t.cpu()`: same value, moved to the host device. -/
def TorchTensor.cpu (t : TorchTensor) : TorchTensor :=
  { t with device := Device.cpu }

/-- A Python value as returned to callers: a torch tensor, a 0-dimensional
NumPy array, or a plain Python float. -/
inductive PyVal : Type where
  | tensor (t : TorchTensor) : PyVal
  | ndarrayScalar (v : ℚ) : PyVal
  | pyFloat (v : ℚ) : PyVal
deriving DecidableEq

/-- Whether a value still carries gradient-tracking metadata. -/
def PyVal.requiresGrad : PyVal → Bool
  | .tensor t => t.requiresGrad
  | .ndarrayScalar _ => false
  | .pyFloat _ => false

/-- Whether a value resides in host memory. -/
def PyVal.onHost : PyVal → Bool
  | .tensor t => t.device = Device.cpu
  | .ndarrayScalar _ => true
  | .pyFloat _ => true

/-- Whether a value is a plain Python `float`. -/
def PyVal.isPyFloat : PyVal → Bool
  | .pyFloat _ => true
  | .tensor _ => false
  | .ndarrayScalar _ => false

/-- `t.numpy()`: a 0-dimensional NumPy array with the same value; raises if
the tensor requires grad or is not on the cpu device. -/
def TorchTensor.numpy (t : TorchTensor) : Option PyVal :=
  if t.device = Device.cpu ∧ t.requiresGrad = false then
    some (PyVal.ndarrayScalar t.val)
  else
    none

/-- The external collaborators of `update_dm`: the loss functional
`lf.dynamics(dm, batch, target, td)` and the in-place mutators
`optim_dm.zero_grad()`, `dm_loss.backward()`, `optim_dm.step()`.  The hidden
model/optimizer state is `σ`; each call may raise any exception. -/
structure Externals (α σ : Type) : Type where
  dynamics : σ → PyDict (Tensor α) → String → Bool → Except Exn TorchTensor
  zeroGrad : σ → Except Exn σ
  backward : σ → TorchTensor → Except Exn σ
  optimStep : σ → Except Exn σ

/-- `update_dm(dm, optim_dm, batch, target, td)`: compute the loss, zero
grads, backpropagate, step the optimizer, and return
`dm_loss.detach().cpu().numpy()` together with the mutated state. -/
def update_dm {α σ : Type} (E : Externals α σ) (s : σ)
    (batch : PyDict (Tensor α)) (target : String) (td : Bool) :
    Except Exn (σ × PyVal) := do
  let dm_loss ← E.dynamics s batch target td
  let s ← E.zeroGrad s
  let s ← E.backward s dm_loss
  let s ← E.optimStep s
  match ((dm_loss.detach).cpu).numpy with
  | some v => pure (s, v)
  | none => throw (Exn.runtimeError "numpy on a tensor that requires grad")

/-- `d[k]` as an `Except` computation, raising `KeyError` on a missing key. -/
def dictGetE {β : Type} (d : PyDict β) (k : String) : Except Exn β :=
  match dictGet? d k with
  | some v => .ok v
  | none => .error (Exn.keyError k)

/-- The body of `train_dm`'s inner loop that assembles `batch` from
`rl_batch` and `rand_batch`: pass-through of the three fields when one dict
is empty, otherwise `torch.cat([rand, rl], dim=0)` per field; the result is
the dict passed to `update_dm`. -/
def mergeBatch {α : Type} (rl_batch rand_batch : PyDict (Tensor α)) :
    Except Exn (PyDict (Tensor α)) :=
  if dictLen rl_batch = 0 then do
    let o ← dictGetE rand_batch "obs"
    let a ← dictGetE rand_batch "acs"
    let n ← dictGetE rand_batch "next_obs"
    pure (dictSet (dictSet (dictSet [] "obs" o) "acs" a) "next_obs" n)
  else if dictLen rand_batch = 0 then do
    let o ← dictGetE rl_batch "obs"
    let a ← dictGetE rl_batch "acs"
    let n ← dictGetE rl_batch "next_obs"
    pure (dictSet (dictSet (dictSet [] "obs" o) "acs" a) "next_obs" n)
  else do
    let ro ← dictGetE rand_batch "obs"
    let lo ← dictGetE rl_batch "obs"
    let ra ← dictGetE rand_batch "acs"
    let la ← dictGetE rl_batch "acs"
    let rn ← dictGetE rand_batch "next_obs"
    let ln ← dictGetE rl_batch "next_obs"
    pure (dictSet (dictSet (dictSet [] "obs" (ro ++ lo)) "acs" (ra ++ la))
      "next_obs" (rn ++ ln))

/-- A trajectory source (external `Traj`): its stored transition count and
its batch sampler `random_batch(batch_size, num_draws)`.  The extra first
argument models the sampler's internal random state; `train_dm` calls the
sampler once per epoch and passes the epoch index there, so distinct epochs
may draw distinct batches. -/
structure Traj (α : Type) : Type where
  num_step : ℕ
  random_batch : ℕ → ℤ → ℤ → List (PyDict (Tensor α))

/-- `batch_size_rl = int(batch_size * rl_batch_rate)`. -/
def batchSizeRl (batch_size : ℕ) (rl_batch_rate : ℚ) : ℤ :=
  pyInt (batch_size * rl_batch_rate)

/-- `batch_size_rand = batch_size - batch_size_rl`. -/
def batchSizeRand (batch_size : ℕ) (rl_batch_rate : ℚ) : ℤ :=
  batch_size - batchSizeRl batch_size rl_batch_rate

/-- The step-count computation of `train_dm`:
`rand_traj.num_step // batch_size_rand` when `batch_size_rand > 0`, else
`rl_traj.num_step // batch_size_rl`. -/
def stepsPerEpoch (rl_num_step rand_num_step : ℕ) (batch_size : ℕ)
    (rl_batch_rate : ℚ) : Except Exn ℤ :=
  if batchSizeRand batch_size rl_batch_rate > 0 then
    pyFloorDiv rand_num_step (batchSizeRand batch_size rl_batch_rate)
  else
    pyFloorDiv rl_num_step (batchSizeRl batch_size rl_batch_rate)

/-- The inner `for rl_batch, rand_batch in zip(...)` loop of `train_dm` over
an explicit list of drawn batch pairs: merge, update, accumulate the
returned losses in order. -/
def runPairs {α σ : Type} (E : Externals α σ) (target : String) (td : Bool) :
    σ → List (PyDict (Tensor α) × PyDict (Tensor α)) →
    Except Exn (σ × List PyVal)
  | s, [] => .ok (s, [])
  | s, (rl_batch, rand_batch) :: rest => do
    let batch ← mergeBatch rl_batch rand_batch
    let (s1, dm_loss) ← update_dm E s batch target td
    let (s2, losses) ← runPairs E target td s1 rest
    .ok (s2, dm_loss :: losses)

/-- The outer `for e in range(epoch)` loop of `train_dm` over an explicit
list of epoch indices: draw `step` batches from each source and run the
inner loop, accumulating losses across epochs. -/
def runEpochs {α σ : Type} (E : Externals α σ) (rl_traj rand_traj : Traj α)
    (bs_rl bs_rand step : ℤ) (target : String) (td : Bool) :
    σ → List ℕ → Except Exn (σ × List PyVal)
  | s, [] => .ok (s, [])
  | s, e :: es => do
    let (s1, l1) ← runPairs E target td s
      ((rl_traj.random_batch e bs_rl step).zip
        (rand_traj.random_batch e bs_rand step))
    let (s2, l2) ← runEpochs E rl_traj rand_traj bs_rl bs_rand step target td
      s1 es
    .ok (s2, l1 ++ l2)

/-- `train_dm(rl_traj, rand_traj, dyn_model, optim_dm, epoch, batch_size,
rl_batch_rate, target, td)`: split the batch size, compute the per-epoch
step count, run the epoch loop, and return `dict(DynModelLoss=dm_losses)`
together with the final model/optimizer state. -/
def train_dm {α σ : Type} (E : Externals α σ) (rl_traj rand_traj : Traj α)
    (s : σ) (epoch : ℕ) (batch_size : ℕ) (rl_batch_rate : ℚ)
    (target : String) (td : Bool) :
    Except Exn (σ × PyDict (List PyVal)) := do
  let bs_rl := batchSizeRl batch_size rl_batch_rate
  let bs_rand := batchSizeRand batch_size rl_batch_rate
  let step ← stepsPerEpoch rl_traj.num_step rand_traj.num_step batch_size
    rl_batch_rate
  let (s1, dm_losses) ← runEpochs E rl_traj rand_traj bs_rl bs_rand step
    target td s (List.range epoch)
  .ok (s1, dictSet [] "DynModelLoss" dm_losses)

/-! Concrete instantiations used to exercise the theorems below. -/

/-- Collaborators that always succeed; the loss functional returns a
gradient-tracked scalar on an accelerator device (the worst case for
`detach().cpu().numpy()`). -/
def Econc : Externals Unit Unit where
  dynamics := fun _ _ _ _ => Except.ok ⟨0, Device.cuda, true⟩
  zeroGrad := fun s => Except.ok s
  backward := fun s _ => Except.ok s
  optimStep := fun s => Except.ok s

/-- Collaborators whose loss functional raises. -/
def EbadDyn : Externals Unit Unit where
  dynamics := fun _ _ _ _ => Except.error (Exn.external "boom")
  zeroGrad := fun s => Except.ok s
  backward := fun s _ => Except.ok s
  optimStep := fun s => Except.ok s

/-- A concrete sampled batch with all four stored fields. -/
def sampleBatch : PyDict (Tensor Unit) :=
  [("obs", [()]), ("acs", [()]), ("next_obs", [()]), ("rews", [()])]

/-- A concrete on-policy source with 100 stored steps whose sampler yields
the requested number of draws. -/
def rlT : Traj Unit :=
  ⟨100, fun _ _ n => List.replicate n.toNat sampleBatch⟩

/-- A concrete random source with 1000 stored steps whose sampler yields the
requested number of draws. -/
def randT : Traj Unit :=
  ⟨1000, fun _ _ n => List.replicate n.toNat sampleBatch⟩

/-! Basic reduction lemmas for the `Except` monad and the dict operations. -/

theorem exceptBind_ok {ε α β : Type} (a : α) (f : α → Except ε β) :
    (Except.ok a >>= f : Except ε β) = f a := rfl

theorem exceptBind_error {ε α β : Type} (e : ε) (f : α → Except ε β) :
    (Except.error e >>= f : Except ε β) = Except.error e := rfl

theorem exceptPure {ε α : Type} (a : α) :
    (pure a : Except ε α) = Except.ok a := rfl

theorem mk_batch_eq {α : Type} (o a n : Tensor α) :
    dictSet (dictSet (dictSet ([] : PyDict (Tensor α)) "obs" o) "acs" a)
      "next_obs" n = [("obs", o), ("acs", a), ("next_obs", n)] := rfl

theorem mergeBatch_empty_left {α : Type} (rl_batch rand_batch b : PyDict (Tensor α))
    (h : dictLen rl_batch = 0) :
    mergeBatch rl_batch rand_batch = Except.ok b ↔
    ∃ o a n, dictGet? rand_batch "obs" = some o ∧
      dictGet? rand_batch "acs" = some a ∧
      dictGet? rand_batch "next_obs" = some n ∧
      b = [("obs", o), ("acs", a), ("next_obs", n)] := by
  rw [mergeBatch, if_pos h]
  cases ho : dictGet? rand_batch "obs" with
  | none => simp [dictGetE, ho, exceptBind_error]
  | some o =>
    cases ha : dictGet? rand_batch "acs" with
    | none => simp [dictGetE, ho, ha, exceptBind_error, exceptBind_ok]
    | some a =>
      cases hn : dictGet? rand_batch "next_obs" with
      | none => simp [dictGetE, ho, ha, hn, exceptBind_error, exceptBind_ok]
      | some n =>
        simp [dictGetE, ho, ha, hn, exceptBind_error, exceptBind_ok,
          exceptPure, mk_batch_eq, eq_comm]

theorem mergeBatch_empty_right {α : Type} (rl_batch rand_batch b : PyDict (Tensor α))
    (h0 : ¬ dictLen rl_batch = 0) (h : dictLen rand_batch = 0) :
    mergeBatch rl_batch rand_batch = Except.ok b ↔
    ∃ o a n, dictGet? rl_batch "obs" = some o ∧
      dictGet? rl_batch "acs" = some a ∧
      dictGet? rl_batch "next_obs" = some n ∧
      b = [("obs", o), ("acs", a), ("next_obs", n)] := by
  rw [mergeBatch, if_neg h0, if_pos h]
  cases ho : dictGet? rl_batch "obs" with
  | none => simp [dictGetE, ho, exceptBind_error]
  | some o =>
    cases ha : dictGet? rl_batch "acs" with
    | none => simp [dictGetE, ho, ha, exceptBind_error, exceptBind_ok]
    | some a =>
      cases hn : dictGet? rl_batch "next_obs" with
      | none => simp [dictGetE, ho, ha, hn, exceptBind_error, exceptBind_ok]
      | some n =>
        simp [dictGetE, ho, ha, hn, exceptBind_error, exceptBind_ok,
          exceptPure, mk_batch_eq, eq_comm]

theorem mergeBatch_nonempty {α : Type} (rl_batch rand_batch b : PyDict (Tensor α))
    (h0 : ¬ dictLen rl_batch = 0) (h1 : ¬ dictLen rand_batch = 0) :
    mergeBatch rl_batch rand_batch = Except.ok b ↔
    ∃ ro lo ra la rn ln, dictGet? rand_batch "obs" = some ro ∧
      dictGet? rl_batch "obs" = some lo ∧
      dictGet? rand_batch "acs" = some ra ∧
      dictGet? rl_batch "acs" = some la ∧
      dictGet? rand_batch "next_obs" = some rn ∧
      dictGet? rl_batch "next_obs" = some ln ∧
      b = [("obs", ro ++ lo), ("acs", ra ++ la), ("next_obs", rn ++ ln)] := by
  rw [mergeBatch, if_neg h0, if_neg h1]
  cases hro : dictGet? rand_batch "obs" with
  | none => simp [dictGetE, hro, exceptBind_error]
  | some ro =>
    cases hlo : dictGet? rl_batch "obs" with
    | none => simp [dictGetE, hro, hlo, exceptBind_error, exceptBind_ok]
    | some lo =>
      cases hra : dictGet? rand_batch "acs" with
      | none => simp [dictGetE, hro, hlo, hra, exceptBind_error, exceptBind_ok]
      | some ra =>
        cases hla : dictGet? rl_batch "acs" with
        | none =>
          simp [dictGetE, hro, hlo, hra, hla, exceptBind_error, exceptBind_ok]
        | some la =>
          cases hrn : dictGet? rand_batch "next_obs" with
          | none =>
            simp [dictGetE, hro, hlo, hra, hla, hrn, exceptBind_error,
              exceptBind_ok]
          | some rn =>
            cases hln : dictGet? rl_batch "next_obs" with
            | none =>
              simp [dictGetE, hro, hlo, hra, hla, hrn, hln, exceptBind_error,
                exceptBind_ok]
            | some ln =>
              simp [dictGetE, hro, hlo, hra, hla, hrn, hln, exceptBind_error,
                exceptBind_ok, exceptPure, mk_batch_eq, eq_comm]

/-! Concrete evaluations of the batch-size split. -/

theorem batchSizeRl_512 : batchSizeRl 512 (9/10 : ℚ) = 460 := by
  norm_num [batchSizeRl, pyInt]

theorem batchSizeRand_512 : batchSizeRand 512 (9/10 : ℚ) = 52 := by
  norm_num [batchSizeRand, batchSizeRl, pyInt]

/-! The claims. -/

/-- Claim C1: `train_dm` computes the number of sampling steps per epoch as
`rand_traj.num_step` floor-divided by `batch_size_rand` when
`batch_size_rand > 0`, and as `rl_traj.num_step` floor-divided by
`batch_size_rl` otherwise (provided the latter divisor is nonzero; the
both-zero case raises, see claim C8). -/
theorem steps_per_epoch_spec_C1 (rl_num_step rand_num_step batch_size : ℕ)
    (rl_batch_rate : ℚ) :
    (batchSizeRand batch_size rl_batch_rate > 0 →
      stepsPerEpoch rl_num_step rand_num_step batch_size rl_batch_rate =
        Except.ok
          (Int.fdiv rand_num_step (batchSizeRand batch_size rl_batch_rate))) ∧
    (¬ batchSizeRand batch_size rl_batch_rate > 0 →
      batchSizeRl batch_size rl_batch_rate ≠ 0 →
      stepsPerEpoch rl_num_step rand_num_step batch_size rl_batch_rate =
        Except.ok
          (Int.fdiv rl_num_step (batchSizeRl batch_size rl_batch_rate))) := by
  constructor
  · intro h
    rw [stepsPerEpoch, if_pos h, pyFloorDiv, if_neg (by omega)]
  · intro h h2
    rw [stepsPerEpoch, if_neg h, pyFloorDiv, if_neg h2]

/-- Witness for C1 at the spec's end-to-end instance: rl count 100, random
count 1000, batch size 512, rate 9/10, so the random sub-size 52 is positive
and the step count is 1000 // 52 = 19. -/
theorem steps_per_epoch_spec_C1_witness :
    stepsPerEpoch 100 1000 512 (9/10 : ℚ) = Except.ok 19 := by
  have h := (steps_per_epoch_spec_C1 100 1000 512 (9/10 : ℚ)).1
    (by rw [batchSizeRand_512]; norm_num)
  rw [h, batchSizeRand_512]
  congr 1

/-- Claim C2: `train_dm` splits `batch_size` into
`batch_size_rl = int(batch_size * rl_batch_rate)` (truncation toward zero)
and `batch_size_rand = batch_size - batch_size_rl`; in particular 100 at
rate 9/10 gives 90 and 10, and 10 at rate 33/100 gives 3 and 7. -/
theorem batch_split_spec_C2 (batch_size : ℕ) (rl_batch_rate : ℚ) :
    batchSizeRl batch_size rl_batch_rate = pyInt (batch_size * rl_batch_rate) ∧
    batchSizeRand batch_size rl_batch_rate =
      batch_size - pyInt (batch_size * rl_batch_rate) ∧
    batchSizeRl 100 (9/10 : ℚ) = 90 ∧
    batchSizeRand 100 (9/10 : ℚ) = 10 ∧
    batchSizeRl 10 (33/100 : ℚ) = 3 ∧
    batchSizeRand 10 (33/100 : ℚ) = 7 := by
  refine ⟨rfl, rfl, ?_, ?_, ?_, ?_⟩ <;>
    norm_num [batchSizeRand, batchSizeRl, pyInt]

/-- Claim C4: when one side's drawn batch is empty (its requested sub-size
being 0), the batch `train_dm` assembles equals the other side's batch field
for field on `obs`, `acs`, `next_obs`. -/
theorem merge_pass_through_spec_C4 {α : Type}
    (rl_batch rand_batch b : PyDict (Tensor α))
    (hb : mergeBatch rl_batch rand_batch = Except.ok b) :
    (dictLen rl_batch = 0 →
      dictGet? b "obs" = dictGet? rand_batch "obs" ∧
      dictGet? b "acs" = dictGet? rand_batch "acs" ∧
      dictGet? b "next_obs" = dictGet? rand_batch "next_obs") ∧
    (¬ dictLen rl_batch = 0 → dictLen rand_batch = 0 →
      dictGet? b "obs" = dictGet? rl_batch "obs" ∧
      dictGet? b "acs" = dictGet? rl_batch "acs" ∧
      dictGet? b "next_obs" = dictGet? rl_batch "next_obs") := by
  constructor
  · intro h0
    obtain ⟨o, a, n, ho, ha, hn, rfl⟩ := (mergeBatch_empty_left _ _ _ h0).1 hb
    exact ⟨by rw [ho]; rfl, by rw [ha]; rfl, by rw [hn]; rfl⟩
  · intro h0 h1
    obtain ⟨o, a, n, ho, ha, hn, rfl⟩ :=
      (mergeBatch_empty_right _ _ _ h0 h1).1 hb
    exact ⟨by rw [ho]; rfl, by rw [ha]; rfl, by rw [hn]; rfl⟩

/-- Witness for C4: an empty on-policy batch beside a concrete random batch
carrying all four stored fields. -/
theorem merge_pass_through_spec_C4_witness :
    dictGet? [("obs", [()]), ("acs", [()]), ("next_obs", [()])] "obs" =
      dictGet? sampleBatch "obs" ∧
    dictGet? [("obs", [()]), ("acs", [()]), ("next_obs", [()])] "acs" =
      dictGet? sampleBatch "acs" ∧
    dictGet? [("obs", [()]), ("acs", [()]), ("next_obs", [()])] "next_obs" =
      dictGet? sampleBatch "next_obs" :=
  (merge_pass_through_spec_C4 ([] : PyDict (Tensor Unit)) sampleBatch
    [("obs", [()]), ("acs", [()]), ("next_obs", [()])] rfl).1 rfl

/-- Claim C5: when both drawn batches are non-empty, each merged field's
sample-dimension length is the sum of the two inputs' sample-dimension
lengths. -/
theorem merge_length_spec_C5 {α : Type}
    (rl_batch rand_batch b : PyDict (Tensor α))
    (h0 : ¬ dictLen rl_batch = 0) (h1 : ¬ dictLen rand_batch = 0)
    (hb : mergeBatch rl_batch rand_batch = Except.ok b) :
    ∀ k ∈ (["obs", "acs", "next_obs"] : List String),
      ∃ tr tl t : Tensor α, dictGet? rand_batch k = some tr ∧
        dictGet? rl_batch k = some tl ∧ dictGet? b k = some t ∧
        t.length = tr.length + tl.length := by
  obtain ⟨ro, lo, ra, la, rn, ln, hro, hlo, hra, hla, hrn, hln, rfl⟩ :=
    (mergeBatch_nonempty _ _ _ h0 h1).1 hb
  intro k hk
  fin_cases hk
  · exact ⟨ro, lo, ro ++ lo, hro, hlo, rfl, by simp⟩
  · exact ⟨ra, la, ra ++ la, hra, hla, rfl, by simp⟩
  · exact ⟨rn, ln, rn ++ ln, hrn, hln, rfl, by simp⟩

/-- Witness for C5: both inputs are the concrete four-field batch with one
sample each, and the merged `obs` field has two samples. -/
theorem merge_length_spec_C5_witness :
    ∃ tr tl t : Tensor Unit, dictGet? sampleBatch "obs" = some tr ∧
      dictGet? sampleBatch "obs" = some tl ∧
      dictGet? [("obs", [(), ()]), ("acs", [(), ()]), ("next_obs", [(), ()])]
        "obs" = some t ∧
      t.length = tr.length + tl.length :=
  merge_length_spec_C5 sampleBatch sampleBatch
    [("obs", [(), ()]), ("acs", [(), ()]), ("next_obs", [(), ()])]
    (by decide) (by decide) rfl "obs" (by simp)

/-- Claim C10: when both drawn batches are non-empty, each merged field puts
the random-source samples first and the on-policy samples after them. -/
theorem merge_order_spec_C10 {α : Type}
    (rl_batch rand_batch b : PyDict (Tensor α))
    (h0 : ¬ dictLen rl_batch = 0) (h1 : ¬ dictLen rand_batch = 0)
    (hb : mergeBatch rl_batch rand_batch = Except.ok b) :
    ∀ k ∈ (["obs", "acs", "next_obs"] : List String),
      ∃ tr tl : Tensor α, dictGet? rand_batch k = some tr ∧
        dictGet? rl_batch k = some tl ∧ dictGet? b k = some (tr ++ tl) := by
  obtain ⟨ro, lo, ra, la, rn, ln, hro, hlo, hra, hla, hrn, hln, rfl⟩ :=
    (mergeBatch_nonempty _ _ _ h0 h1).1 hb
  intro k hk
  fin_cases hk
  · exact ⟨ro, lo, hro, hlo, rfl⟩
  · exact ⟨ra, la, hra, hla, rfl⟩
  · exact ⟨rn, ln, hrn, hln, rfl⟩

/-- Witness for C10: merging two distinct concrete batches puts the random
batch's `obs` sample before the on-policy batch's. -/
theorem merge_order_spec_C10_witness :
    ∃ tr tl : Tensor ℚ,
      dictGet? [("obs", [1]), ("acs", [2]), ("next_obs", [3])] "obs" =
        some tr ∧
      dictGet? [("obs", [4]), ("acs", [5]), ("next_obs", [6])] "obs" =
        some tl ∧
      dictGet? [("obs", [(1 : ℚ), 4]), ("acs", [2, 5]), ("next_obs", [3, 6])]
        "obs" = some (tr ++ tl) :=
  merge_order_spec_C10 [("obs", [4]), ("acs", [5]), ("next_obs", [6])]
    [("obs", [1]), ("acs", [2]), ("next_obs", [3])]
    [("obs", [(1 : ℚ), 4]), ("acs", [2, 5]), ("next_obs", [3, 6])]
    (by decide) (by decide) rfl "obs" (by simp)

/-- Claim C9: whichever branch assembles it, the batch `train_dm` passes to
`update_dm` has exactly the keys `obs`, `acs`, `next_obs` (in that order)
and never a `rews` key. -/
theorem merge_keys_spec_C9 {α : Type}
    (rl_batch rand_batch b : PyDict (Tensor α))
    (hb : mergeBatch rl_batch rand_batch = Except.ok b) :
    dictKeys b = ["obs", "acs", "next_obs"] ∧ "rews" ∉ dictKeys b := by
  by_cases h0 : dictLen rl_batch = 0
  · obtain ⟨o, a, n, _, _, _, rfl⟩ := (mergeBatch_empty_left _ _ _ h0).1 hb
    exact ⟨rfl, by simp [dictKeys]⟩
  · by_cases h1 : dictLen rand_batch = 0
    · obtain ⟨o, a, n, _, _, _, rfl⟩ :=
        (mergeBatch_empty_right _ _ _ h0 h1).1 hb
      exact ⟨rfl, by simp [dictKeys]⟩
    · obtain ⟨ro, lo, ra, la, rn, ln, _, _, _, _, _, _, rfl⟩ :=
        (mergeBatch_nonempty _ _ _ h0 h1).1 hb
      exact ⟨rfl, by simp [dictKeys]⟩

/-- Witness for C9: merging two copies of the four-field batch (which does
carry `rews`) yields exactly the three target keys. -/
theorem merge_keys_spec_C9_witness :
    dictKeys [("obs", [(), ()]), ("acs", [(), ()]), ("next_obs", [(), ()])] =
      ["obs", "acs", "next_obs"] ∧
    "rews" ∉
      dictKeys
        [("obs", [(), ()]), ("acs", [(), ()]), ("next_obs", [(), ()])] :=
  merge_keys_spec_C9 sampleBatch sampleBatch
    [("obs", [(), ()]), ("acs", [(), ()]), ("next_obs", [(), ()])] rfl

/-- Claim C8: when both computed sub-batch sizes are zero, the step-count
computation divides by zero and `train_dm` raises `ZeroDivisionError`
instead of returning a result; nothing guards this case. -/
theorem train_dm_zero_div_spec_C8 {α σ : Type} (E : Externals α σ)
    (rl_traj rand_traj : Traj α) (s : σ) (epoch batch_size : ℕ)
    (rl_batch_rate : ℚ) (target : String) (td : Bool)
    (h1 : batchSizeRand batch_size rl_batch_rate = 0)
    (h2 : batchSizeRl batch_size rl_batch_rate = 0) :
    train_dm E rl_traj rand_traj s epoch batch_size rl_batch_rate target td =
      Except.error Exn.zeroDivision := by
  have hs : stepsPerEpoch rl_traj.num_step rand_traj.num_step batch_size
      rl_batch_rate = (Except.error Exn.zeroDivision : Except Exn ℤ) := by
    rw [stepsPerEpoch, if_neg (by omega), pyFloorDiv, if_pos h2]
  rw [train_dm, hs, exceptBind_error]

/-- Witness for C8: `batch_size = 0` makes both sub-sizes zero, and the
whole call fails with `ZeroDivisionError`. -/
theorem train_dm_zero_div_spec_C8_witness :
    train_dm Econc rlT randT () 60 0 (9/10 : ℚ) "next_obs" true =
      Except.error Exn.zeroDivision :=
  train_dm_zero_div_spec_C8 Econc rlT randT () 60 0 (9/10 : ℚ) "next_obs"
    true (by norm_num [batchSizeRand, batchSizeRl, pyInt])
    (by norm_num [batchSizeRl, pyInt])

/-- When every collaborator call succeeds, `update_dm` returns the final
state and `dm_loss.detach().cpu().numpy()`, a NumPy scalar holding the loss
value. -/
theorem update_dm_ok {α σ : Type} (E : Externals α σ) (s : σ)
    (batch : PyDict (Tensor α)) (target : String) (td : Bool)
    (l : TorchTensor) (s1 s2 s3 : σ)
    (hdyn : E.dynamics s batch target td = Except.ok l)
    (hzg : E.zeroGrad s = Except.ok s1)
    (hbw : E.backward s1 l = Except.ok s2)
    (hos : E.optimStep s2 = Except.ok s3) :
    update_dm E s batch target td =
      Except.ok (s3, PyVal.ndarrayScalar l.val) := by
  simp only [update_dm, hdyn, exceptBind_ok, hzg, hbw, hos]
  rfl

/-- Claim C6 (amended): `update_dm` returns the scalar loss value detached
from the computation graph and moved to host memory, carrying no residual
gradient-tracking metadata — but as a 0-dimensional NumPy array
(`numpy.ndarray`), not a Python `float`. -/
theorem update_dm_detached_spec_C6 {α σ : Type} (E : Externals α σ) (s : σ)
    (batch : PyDict (Tensor α)) (target : String) (td : Bool)
    (l : TorchTensor) (s1 s2 s3 : σ)
    (hdyn : E.dynamics s batch target td = Except.ok l)
    (hzg : E.zeroGrad s = Except.ok s1)
    (hbw : E.backward s1 l = Except.ok s2)
    (hos : E.optimStep s2 = Except.ok s3) :
    update_dm E s batch target td =
      Except.ok (s3, PyVal.ndarrayScalar l.val) ∧
    PyVal.requiresGrad (PyVal.ndarrayScalar l.val) = false ∧
    PyVal.onHost (PyVal.ndarrayScalar l.val) = true ∧
    PyVal.isPyFloat (PyVal.ndarrayScalar l.val) = false :=
  ⟨update_dm_ok E s batch target td l s1 s2 s3 hdyn hzg hbw hos, rfl, rfl,
    rfl⟩

/-- Witness for the amended C6: concrete collaborators whose loss is a
gradient-tracked accelerator tensor; the returned value is a host-resident
NumPy scalar with no gradient metadata. -/
theorem update_dm_detached_spec_C6_witness :
    update_dm Econc () sampleBatch "next_obs" true =
      Except.ok ((), PyVal.ndarrayScalar 0) ∧
    PyVal.requiresGrad (PyVal.ndarrayScalar 0) = false ∧
    PyVal.onHost (PyVal.ndarrayScalar 0) = true ∧
    PyVal.isPyFloat (PyVal.ndarrayScalar 0) = false :=
  update_dm_detached_spec_C6 Econc () sampleBatch "next_obs" true
    ⟨0, Device.cuda, true⟩ () () () rfl rfl rfl rfl

/-- Counterexample to C6 as stated: at a concrete input the value
`update_dm` returns is a 0-dimensional NumPy array, not a Python `float`,
so the exposed return type is not `float`. -/
theorem update_dm_float_cex_C6 :
    update_dm Econc () sampleBatch "next_obs" true =
      Except.ok ((), PyVal.ndarrayScalar 0) ∧
    PyVal.isPyFloat (PyVal.ndarrayScalar 0) = false :=
  ⟨rfl, rfl⟩

/-- Claim C7: a failure in the loss functional, gradient reset,
backpropagation, or optimizer step propagates unmodified out of `update_dm`;
a failed step aborts the rest of the inner loop, and a failing epoch loop
aborts `train_dm`, with no result returned in any of these cases. -/
theorem error_propagation_spec_C7 {α σ : Type} (E : Externals α σ) (s : σ)
    (batch : PyDict (Tensor α)) (target : String) (td : Bool) (x : Exn) :
    (E.dynamics s batch target td = Except.error x →
      update_dm E s batch target td = Except.error x) ∧
    (∀ l, E.dynamics s batch target td = Except.ok l →
      E.zeroGrad s = Except.error x →
      update_dm E s batch target td = Except.error x) ∧
    (∀ l s1, E.dynamics s batch target td = Except.ok l →
      E.zeroGrad s = Except.ok s1 →
      E.backward s1 l = Except.error x →
      update_dm E s batch target td = Except.error x) ∧
    (∀ l s1 s2, E.dynamics s batch target td = Except.ok l →
      E.zeroGrad s = Except.ok s1 →
      E.backward s1 l = Except.ok s2 →
      E.optimStep s2 = Except.error x →
      update_dm E s batch target td = Except.error x) ∧
    (∀ rl_batch rand_batch bm rest,
      mergeBatch rl_batch rand_batch = Except.ok bm →
      update_dm E s bm target td = Except.error x →
      runPairs E target td s ((rl_batch, rand_batch) :: rest) =
        Except.error x) ∧
    (∀ (rl_traj rand_traj : Traj α) (epoch batch_size : ℕ) (rate : ℚ)
        (step : ℤ),
      stepsPerEpoch rl_traj.num_step rand_traj.num_step batch_size rate =
        Except.ok step →
      runEpochs E rl_traj rand_traj (batchSizeRl batch_size rate)
        (batchSizeRand batch_size rate) step target td s (List.range epoch) =
        Except.error x →
      train_dm E rl_traj rand_traj s epoch batch_size rate target td =
        Except.error x) := by
  refine ⟨fun h => ?_, fun l h1 h2 => ?_, fun l s1 h1 h2 h3 => ?_,
    fun l s1 s2 h1 h2 h3 h4 => ?_,
    fun rl_batch rand_batch bm rest hm hu => ?_,
    fun rl_traj rand_traj epoch batch_size rate step hs hr => ?_⟩
  · simp only [update_dm, h, exceptBind_error]
  · simp only [update_dm, h1, exceptBind_ok, h2, exceptBind_error]
  · simp only [update_dm, h1, exceptBind_ok, h2, h3, exceptBind_error]
  · simp only [update_dm, h1, exceptBind_ok, h2, h3, h4, exceptBind_error]
  · simp only [runPairs, hm, exceptBind_ok, hu, exceptBind_error]
  · simp only [train_dm, hs, exceptBind_ok, hr, exceptBind_error]

/-- Witness for C7: a loss functional that raises makes `update_dm` fail
with exactly that exception. -/
theorem error_propagation_spec_C7_witness :
    update_dm EbadDyn () sampleBatch "next_obs" true =
      Except.error (Exn.external "boom") :=
  (error_propagation_spec_C7 EbadDyn () sampleBatch "next_obs" true
    (Exn.external "boom")).1 rfl

/-- When the collaborators always succeed and every drawn pair merges, the
inner loop succeeds and yields one loss per pair. -/
theorem runPairs_ok {α σ : Type} (E : Externals α σ) (target : String)
    (td : Bool)
    (hdyn : ∀ s' b, ∃ l, E.dynamics s' b target td = Except.ok l)
    (hzg : ∀ s', ∃ s'', E.zeroGrad s' = Except.ok s'')
    (hbw : ∀ s' l, ∃ s'', E.backward s' l = Except.ok s'')
    (hos : ∀ s', ∃ s'', E.optimStep s' = Except.ok s'') :
    ∀ (pairs : List (PyDict (Tensor α) × PyDict (Tensor α))) (s : σ),
      (∀ p ∈ pairs, ∃ bm, mergeBatch p.1 p.2 = Except.ok bm) →
      ∃ s' ls, runPairs E target td s pairs = Except.ok (s', ls) ∧
        ls.length = pairs.length := by
  intro pairs
  induction pairs with
  | nil => exact fun s _ => ⟨s, [], rfl, rfl⟩
  | cons p rest ih =>
    intro s hall
    obtain ⟨pa, pb⟩ := p
    obtain ⟨bm, hbm⟩ := hall (pa, pb) (List.mem_cons_self _ _)
    obtain ⟨l, hl⟩ := hdyn s bm
    obtain ⟨s1, h1⟩ := hzg s
    obtain ⟨s2, h2⟩ := hbw s1 l
    obtain ⟨s3, h3⟩ := hos s2
    have hup := update_dm_ok E s bm target td l s1 s2 s3 hl h1 h2 h3
    obtain ⟨s', ls, hrest, hlen⟩ :=
      ih s3 (fun q hq => hall q (List.mem_cons_of_mem _ hq))
    refine ⟨s', PyVal.ndarrayScalar l.val :: ls, ?_, by simp [hlen]⟩
    simp only [runPairs, hbm, exceptBind_ok, hup, hrest]

/-- When the collaborators always succeed, every epoch's samplers yield `m`
batches each, and every drawn pair merges, the epoch loop succeeds with
`m` losses per epoch. -/
theorem runEpochs_ok {α σ : Type} (E : Externals α σ)
    (rl_traj rand_traj : Traj α) (bs_rl bs_rand step : ℤ) (target : String)
    (td : Bool) (m : ℕ)
    (hdyn : ∀ s' b, ∃ l, E.dynamics s' b target td = Except.ok l)
    (hzg : ∀ s', ∃ s'', E.zeroGrad s' = Except.ok s'')
    (hbw : ∀ s' l, ∃ s'', E.backward s' l = Except.ok s'')
    (hos : ∀ s', ∃ s'', E.optimStep s' = Except.ok s'') :
    ∀ (es : List ℕ) (s : σ),
      (∀ e ∈ es, (rl_traj.random_batch e bs_rl step).length = m) →
      (∀ e ∈ es, (rand_traj.random_batch e bs_rand step).length = m) →
      (∀ e ∈ es, ∀ p ∈ (rl_traj.random_batch e bs_rl step).zip
          (rand_traj.random_batch e bs_rand step),
        ∃ bm, mergeBatch p.1 p.2 = Except.ok bm) →
      ∃ s' ls, runEpochs E rl_traj rand_traj bs_rl bs_rand step target td s
          es = Except.ok (s', ls) ∧ ls.length = es.length * m := by
  intro es
  induction es with
  | nil => exact fun s _ _ _ => ⟨s, [], rfl, by simp⟩
  | cons e es ih =>
    intro s h1 h2 h3
    have hz : ((rl_traj.random_batch e bs_rl step).zip
        (rand_traj.random_batch e bs_rand step)).length = m := by
      rw [List.length_zip, h1 e (List.mem_cons_self _ _),
        h2 e (List.mem_cons_self _ _), Nat.min_self]
    obtain ⟨s3, l1, hp, hl1⟩ := runPairs_ok E target td hdyn hzg hbw hos _ s
      (h3 e (List.mem_cons_self _ _))
    obtain ⟨s', l2, hr, hl2⟩ := ih s3
      (fun e' he' => h1 e' (List.mem_cons_of_mem _ he'))
      (fun e' he' => h2 e' (List.mem_cons_of_mem _ he'))
      (fun e' he' => h3 e' (List.mem_cons_of_mem _ he'))
    refine ⟨s', l1 ++ l2, ?_, ?_⟩
    · simp only [runEpochs, hp, exceptBind_ok, hr]
    · rw [List.length_append, hl1, hz, hl2, List.length_cons, Nat.succ_mul,
        Nat.add_comm]

/-- Claim C3: when each source's sampler yields exactly the computed number
of steps per epoch and every step succeeds, `train_dm` returns a dict with
the single key `DynModelLoss` holding the ordered per-step loss list, of
length `epoch * step`. -/
theorem train_dm_result_spec_C3 {α σ : Type} (E : Externals α σ)
    (rl_traj rand_traj : Traj α) (s : σ) (epoch batch_size : ℕ)
    (rl_batch_rate : ℚ) (target : String) (td : Bool) (step : ℤ)
    (hstep : stepsPerEpoch rl_traj.num_step rand_traj.num_step batch_size
      rl_batch_rate = Except.ok step)
    (hlen_rl : ∀ e, (rl_traj.random_batch e
      (batchSizeRl batch_size rl_batch_rate) step).length = step.toNat)
    (hlen_rand : ∀ e, (rand_traj.random_batch e
      (batchSizeRand batch_size rl_batch_rate) step).length = step.toNat)
    (hmerge : ∀ e, ∀ p ∈ (rl_traj.random_batch e
        (batchSizeRl batch_size rl_batch_rate) step).zip
        (rand_traj.random_batch e (batchSizeRand batch_size rl_batch_rate)
          step),
      ∃ bm, mergeBatch p.1 p.2 = Except.ok bm)
    (hdyn : ∀ s' b, ∃ l, E.dynamics s' b target td = Except.ok l)
    (hzg : ∀ s', ∃ s'', E.zeroGrad s' = Except.ok s'')
    (hbw : ∀ s' l, ∃ s'', E.backward s' l = Except.ok s'')
    (hos : ∀ s', ∃ s'', E.optimStep s' = Except.ok s'') :
    ∃ s' ls, train_dm E rl_traj rand_traj s epoch batch_size rl_batch_rate
        target td = Except.ok (s', [("DynModelLoss", ls)]) ∧
      ls.length = epoch * step.toNat ∧
      dictKeys [("DynModelLoss", ls)] = ["DynModelLoss"] := by
  obtain ⟨s', ls, hrun, hlen⟩ := runEpochs_ok E rl_traj rand_traj
    (batchSizeRl batch_size rl_batch_rate)
    (batchSizeRand batch_size rl_batch_rate) step target td step.toNat hdyn
    hzg hbw hos (List.range epoch) s (fun e _ => hlen_rl e)
    (fun e _ => hlen_rand e) (fun e _ => hmerge e)
  refine ⟨s', ls, ?_, ?_, rfl⟩
  · simp only [train_dm, hstep, exceptBind_ok, hrun]
    rfl
  · rw [hlen, List.length_range]

/-- Evaluation of the step count at the end-to-end instance. -/
theorem steps_512_eval : stepsPerEpoch 100 1000 512 (9/10 : ℚ) =
    Except.ok 19 := by
  have h52 : batchSizeRand 512 (9/10 : ℚ) = 52 := batchSizeRand_512
  rw [stepsPerEpoch, if_pos (by rw [h52]; norm_num), pyFloorDiv,
    if_neg (by rw [h52]; norm_num), h52]
  congr 1

/-- Witness for C3 at the spec's end-to-end instance: random count 1000, rl
count 100, batch size 512, rate 9/10, epoch 2, so 19 steps per epoch and a
loss list of length 38. -/
theorem train_dm_result_spec_C3_witness :
    ∃ s' ls, train_dm Econc rlT randT () 2 512 (9/10 : ℚ) "next_obs" true =
        Except.ok (s', [("DynModelLoss", ls)]) ∧
      ls.length = 38 := by
  obtain ⟨s', ls, h1, h2, _⟩ := train_dm_result_spec_C3 Econc rlT randT ()
    2 512 (9/10 : ℚ) "next_obs" true 19 steps_512_eval
    (fun e => by simp [rlT]) (fun e => by simp [randT])
    (fun e p hp => by
      obtain ⟨pa, pb⟩ := p
      simp only [rlT, randT] at hp
      obtain ⟨hpa, hpb⟩ := List.of_mem_zip hp
      rw [List.eq_of_mem_replicate hpa, List.eq_of_mem_replicate hpb]
      exact ⟨_, rfl⟩)
    (fun s' b => ⟨⟨0, Device.cuda, true⟩, rfl⟩) (fun s' => ⟨s', rfl⟩)
    (fun s' l => ⟨s', rfl⟩) (fun s' => ⟨s', rfl⟩)
  exact ⟨s', ls, h1, by omega⟩

end Machina
